import Mathlib

/-!
# Verification of the MCP git-server dispatcher and validators

This file gives a shallow embedding of the request-dispatch and
input-validation layer of the MCP git server (the `validatePath`,
`validateBranchName`, `validateCommitMessage` functions and the
`executeTool` dispatcher), and proves properties of that embedding.

JavaScript argument values are modelled by `JVal`; a missing property
(JS `undefined`) is modelled by `Option.none`.  The external git engine
(simple-git) is modelled by an oracle `GitEnv` assigning to every
primitive invocation either a result string or an error message; the
dispatcher is a total function returning the MCP tool result together
with the ordered trace of git primitives it attempted.
-/

namespace GitServer

/-- A JavaScript value as it can appear in an MCP `arguments` bag. -/
inductive JVal where
  | str : String → JVal
  | num : Int → JVal
  | bool : Bool → JVal
  | null : JVal
  | arr : List JVal → JVal

/-- JS truthiness of a `JVal` (arrays and objects are always truthy;
`""`, `0`, `false`, `null` are falsy). -/
def jTruthy : JVal → Bool
  | .str s => !s.data.isEmpty
  | .num n => n ≠ 0
  | .bool b => b
  | .null => false
  | .arr _ => true

/-- Truthiness of an optional property (JS `undefined` is falsy). -/
def jTruthyOpt : Option JVal → Bool
  | none => false
  | some v => jTruthy v

mutual
/-- JS `String(v)` / template-literal stringification of a `JVal`. -/
def jsStr : JVal → String
  | .str s => s
  | .num n => toString n
  | .bool b => if b then "true" else "false"
  | .null => "null"
  | .arr l => jsStrList l

/-- JS array-to-string: elements joined by commas. -/
def jsStrList : List JVal → String
  | [] => ""
  | [v] => jsStr v
  | v :: rest => jsStr v ++ "," ++ jsStrList rest
end

/-- The characters matched by the source's `[<>|&;$\x60]` character
class (the "dangerous characters" of `validatePath`). -/
def dangerousChar (c : Char) : Bool :=
  c = '<' || c = '>' || c = '|' || c = '&' || c = ';' || c = '$' || c = '`'

/-- The characters matched by `[<>|&;$\x60\\]`: the dangerous set
together with the backslash (used by `validateBranchName` and
`validateCommitMessage`). -/
def dangerousOrBackslash (c : Char) : Bool :=
  dangerousChar c || c = '\\'

/-- JS `s.includes('..')`: the list of characters has two consecutive
dots somewhere. -/
def hasDotDot : List Char → Bool
  | c₁ :: c₂ :: rest => (c₁ = '.' && c₂ = '.') || hasDotDot (c₂ :: rest)
  | _ => false

/-- JS `s.startsWith('/')` on the character list. -/
def headIsSlash : List Char → Bool
  | c :: _ => c = '/'
  | [] => false

/-- JS `s.trim()`: strip leading and trailing whitespace. -/
def jsTrim (s : String) : String :=
  String.mk (((s.data.dropWhile Char.isWhitespace).reverse.dropWhile
    Char.isWhitespace).reverse)

/-- Embedding of `validatePath` (git server source, lines 110–126).
The argument is the raw JS value of the `path` property (`none` for a
missing property); non-strings and the empty string fail the
`!path || typeof path !== 'string'` check. -/
def validatePath (v : Option JVal) : Except String String :=
  match v with
  | some (.str p) =>
    if p.data.isEmpty then
      .error "Path must be a non-empty string"
    else if hasDotDot p.data || headIsSlash p.data || p.data.contains '\\' then
      .error "Invalid path: path traversal not allowed"
    else if headIsSlash p.data || p.data.any dangerousChar then
      .error "Invalid path: dangerous characters not allowed"
    else
      .ok p
  | _ => .error "Path must be a non-empty string"

/-- Embedding of `validateBranchName` (source lines 128–144): rejects
non-strings, the empty string, dangerous characters (including the
backslash) and `..`, then whitespace-only names, and returns the
trimmed name. -/
def validateBranchName (v : Option JVal) : Except String String :=
  match v with
  | some (.str b) =>
    if b.data.isEmpty then
      .error "Branch name must be a non-empty string"
    else if b.data.any dangerousOrBackslash || hasDotDot b.data then
      .error "Invalid branch name: dangerous characters not allowed"
    else if (jsTrim b).data.isEmpty then
      .error "Branch name cannot be empty or whitespace-only"
    else
      .ok (jsTrim b)
  | _ => .error "Branch name must be a non-empty string"

/-- Embedding of `validateCommitMessage` (source lines 146–157):
rejects non-strings, the empty string and the `[<>|&;$\x60\\]`
character class, and otherwise returns the message unchanged. -/
def validateCommitMessage (v : Option JVal) : Except String String :=
  match v with
  | some (.str m) =>
    if m.data.isEmpty then
      .error "Commit message must be a non-empty string"
    else if m.data.any dangerousOrBackslash then
      .error "Invalid commit message: dangerous characters not allowed"
    else
      .ok m
  | _ => .error "Commit message must be a non-empty string"

example : validatePath (some (.str "tmp/w")) = .ok "tmp/w" := rfl
example : validatePath (some (.str "../x")) =
    .error "Invalid path: path traversal not allowed" := rfl
example : validatePath (some (.str "a;b")) =
    .error "Invalid path: dangerous characters not allowed" := rfl
example : validatePath (some (.str "C:/dir")) = .ok "C:/dir" := rfl
example : validatePath (some (.str "a\\b")) =
    .error "Invalid path: path traversal not allowed" := rfl
example : validateBranchName (some (.str "  x  ")) = .ok "x" := rfl
example : validateCommitMessage (some (.str "a\\b")) =
    .error "Invalid commit message: dangerous characters not allowed" := rfl
example : validateCommitMessage (some (.str "fix stuff")) = .ok "fix stuff" := rfl

/-- One attempted invocation of a primitive of the external git engine
(simple-git).  `pushNoArgs`/`pullNoArgs` model the zero-argument
`git.push()` / `git.pull()` calls, which name no remote and no branch. -/
inductive GitCall where
  | status
  | checkoutBranch (branch fromBranch : String)
  | checkoutLocalBranch (branch : String)
  | checkout (branch : String)
  | branchList
  | raw (args : List String)
  | merge (branches : List String)
  | addFiles (files : List String)
  | addAll
  | commit (message : String)
  | pushNoArgs
  | push (remote branch : JVal)
  | pullNoArgs
  | pull (remote branch : JVal)

/-- Oracle for the external world: `init` models `createGitInstance()`
(which may throw), `run` assigns to each attempted git primitive either
a result (the stringified status / branch list / worktree listing /
new commit id, as relevant) or the message of a thrown error. -/
structure GitEnv where
  init : Except String Unit
  run : GitCall → Except String String

/-- The MCP invocation result: `content[0].text` plus the `isError`
flag (absent on success, `true` on failure). -/
structure ToolResult where
  text : String
  isError : Bool

/-- The argument bag of a `tools/call` request, restricted to the
property names the dispatcher ever reads; `none` models an absent
property (JS `undefined`). -/
structure Args where
  branchName : Option JVal
  fromBranch : Option JVal
  path : Option JVal
  branch : Option JVal
  sourceBranch : Option JVal
  targetBranch : Option JVal
  message : Option JVal
  files : Option JVal
  remote : Option JVal

/-- The empty argument bag. -/
def noArgs : Args := ⟨none, none, none, none, none, none, none, none, none⟩

/-- The `git_status` case of the dispatcher switch. -/
def runGitStatus (env : GitEnv) : ToolResult × List GitCall :=
  match env.init with
  | .error e => (⟨"Git status error: " ++ e, true⟩, [])
  | .ok _ =>
    match env.run .status with
    | .ok s => (⟨s, false⟩, [.status])
    | .error e => (⟨"Git status error: " ++ e, true⟩, [.status])

/-- The `create_branch` case: validate `branchName` (and `fromBranch` when
truthy), then `checkoutBranch` or `checkoutLocalBranch`. -/
def runCreateBranch (env : GitEnv) (args : Args) : ToolResult × List GitCall :=
  match env.init with
  | .error e => (⟨"Create branch error: " ++ e, true⟩, [])
  | .ok _ =>
    match validateBranchName args.branchName with
    | .error e => (⟨"Create branch error: " ++ e, true⟩, [])
    | .ok bn =>
      if jTruthyOpt args.fromBranch then
        match validateBranchName args.fromBranch with
        | .error e => (⟨"Create branch error: " ++ e, true⟩, [])
        | .ok fb =>
          match env.run (.checkoutBranch bn fb) with
          | .ok _ =>
            (⟨"Branch '" ++ bn ++ "' created successfully from '" ++ fb ++ "'",
              false⟩, [.checkoutBranch bn fb])
          | .error e =>
            (⟨"Create branch error: " ++ e, true⟩, [.checkoutBranch bn fb])
      else
        match env.run (.checkoutLocalBranch bn) with
        | .ok _ =>
          (⟨"Branch '" ++ bn ++ "' created successfully", false⟩,
            [.checkoutLocalBranch bn])
        | .error e =>
          (⟨"Create branch error: " ++ e, true⟩, [.checkoutLocalBranch bn])

/-- The `switch_branch` case. -/
def runSwitchBranch (env : GitEnv) (args : Args) : ToolResult × List GitCall :=
  match env.init with
  | .error e => (⟨"Switch branch error: " ++ e, true⟩, [])
  | .ok _ =>
    match validateBranchName args.branchName with
    | .error e => (⟨"Switch branch error: " ++ e, true⟩, [])
    | .ok bn =>
      match env.run (.checkout bn) with
      | .ok _ => (⟨"Switched to branch '" ++ bn ++ "'", false⟩, [.checkout bn])
      | .error e => (⟨"Switch branch error: " ++ e, true⟩, [.checkout bn])

/-- The `list_branches` case. -/
def runListBranches (env : GitEnv) : ToolResult × List GitCall :=
  match env.init with
  | .error e => (⟨"List branches error: " ++ e, true⟩, [])
  | .ok _ =>
    match env.run .branchList with
    | .ok s => (⟨s, false⟩, [.branchList])
    | .error e => (⟨"List branches error: " ++ e, true⟩, [.branchList])

/-- JS `split('/')` on the character list: segments between slashes,
preserving empty segments (so `"tmp/"` splits to `["tmp", ""]`). -/
def splitOnSlash : List Char → List (List Char)
  | [] => [[]]
  | c :: rest =>
    let r := splitOnSlash rest
    if c = '/' then [] :: r
    else
      match r with
      | s :: ss => (c :: s) :: ss
      | [] => [[c]]

/-- The branch-name default of `create_worktree` when no explicit
branch is given: `validatedPath.split('/').pop() || 'worktree-branch'`
— the final segment of the split, with the literal fallback when that
final segment is empty (or missing). -/
def defaultWorktreeBranch (p : String) : String :=
  match (splitOnSlash p.data).getLast? with
  | some s => if s.isEmpty then "worktree-branch" else String.mk s
  | none => "worktree-branch"

/-- The `git.raw(['worktree', 'add', '-b', wb, p])` invocation and its
result handling, shared by both branches of `create_worktree`. -/
def runWorktreeAdd (env : GitEnv) (wb p : String) : ToolResult × List GitCall :=
  match env.run (.raw ["worktree", "add", "-b", wb, p]) with
  | .ok _ =>
    (⟨"Worktree created at '" ++ p ++ "' on new branch '" ++ wb ++ "'", false⟩,
      [.raw ["worktree", "add", "-b", wb, p]])
  | .error e =>
    (⟨"Create worktree error: " ++ e, true⟩,
      [.raw ["worktree", "add", "-b", wb, p]])

/-- The `create_worktree` case: validate `path` (and `branch` when truthy),
derive the worktree branch, then `worktree add -b`. -/
def runCreateWorktree (env : GitEnv) (args : Args) : ToolResult × List GitCall :=
  match env.init with
  | .error e => (⟨"Create worktree error: " ++ e, true⟩, [])
  | .ok _ =>
    match validatePath args.path with
    | .error e => (⟨"Create worktree error: " ++ e, true⟩, [])
    | .ok p =>
      if jTruthyOpt args.branch then
        match validateBranchName args.branch with
        | .error e => (⟨"Create worktree error: " ++ e, true⟩, [])
        | .ok vb => runWorktreeAdd env vb p
      else
        runWorktreeAdd env (defaultWorktreeBranch p) p

/-- The `list_worktrees` case. -/
def runListWorktrees (env : GitEnv) : ToolResult × List GitCall :=
  match env.init with
  | .error e => (⟨"List worktrees error: " ++ e, true⟩, [])
  | .ok _ =>
    match env.run (.raw ["worktree", "list"]) with
    | .ok s => (⟨s, false⟩, [.raw ["worktree", "list"]])
    | .error e =>
      (⟨"List worktrees error: " ++ e, true⟩, [.raw ["worktree", "list"]])

/-- The `merge_branch` case: validate `sourceBranch` (and `targetBranch`
when truthy), optionally check out the target, then merge. -/
def runMergeBranch (env : GitEnv) (args : Args) : ToolResult × List GitCall :=
  match env.init with
  | .error e => (⟨"Merge error: " ++ e, true⟩, [])
  | .ok _ =>
    match validateBranchName args.sourceBranch with
    | .error e => (⟨"Merge error: " ++ e, true⟩, [])
    | .ok sb =>
      if jTruthyOpt args.targetBranch then
        match validateBranchName args.targetBranch with
        | .error e => (⟨"Merge error: " ++ e, true⟩, [])
        | .ok tb =>
          match env.run (.checkout tb) with
          | .error e => (⟨"Merge error: " ++ e, true⟩, [.checkout tb])
          | .ok _ =>
            match env.run (.merge [sb]) with
            | .ok _ =>
              (⟨"Merged '" ++ sb ++ "' into '" ++ tb ++ "'", false⟩,
                [.checkout tb, .merge [sb]])
            | .error e =>
              (⟨"Merge error: " ++ e, true⟩, [.checkout tb, .merge [sb]])
      else
        match env.run (.merge [sb]) with
        | .ok _ =>
          (⟨"Merged '" ++ sb ++ "' into 'current branch'", false⟩, [.merge [sb]])
        | .error e => (⟨"Merge error: " ++ e, true⟩, [.merge [sb]])

/-- The `remove_worktree` case. -/
def runRemoveWorktree (env : GitEnv) (args : Args) : ToolResult × List GitCall :=
  match env.init with
  | .error e => (⟨"Remove worktree error: " ++ e, true⟩, [])
  | .ok _ =>
    match validatePath args.path with
    | .error e => (⟨"Remove worktree error: " ++ e, true⟩, [])
    | .ok p =>
      match env.run (.raw ["worktree", "remove", p]) with
      | .ok _ =>
        (⟨"Worktree at '" ++ p ++ "' removed successfully", false⟩,
          [.raw ["worktree", "remove", p]])
      | .error e =>
        (⟨"Remove worktree error: " ++ e, true⟩,
          [.raw ["worktree", "remove", p]])

/-- The per-element check of the commit file list: non-strings throw
`'File paths must be strings'`; strings failing the `validatePath`-like
check throw ``Invalid file path: <file>``. -/
def validateFile (v : JVal) : Except String String :=
  match v with
  | .str f =>
    if hasDotDot f.data || headIsSlash f.data || f.data.contains '\\'
        || f.data.any dangerousChar then
      .error ("Invalid file path: " ++ f)
    else
      .ok f
  | _ => .error "File paths must be strings"

/-- The `files.map(...)` pass over the validation callback: the first throwing
element aborts the whole batch. -/
def validateFiles : List JVal → Except String (List String)
  | [] => .ok []
  | v :: rest =>
    match validateFile v with
    | .error e => .error e
    | .ok f =>
      match validateFiles rest with
      | .error e => .error e
      | .ok fs => .ok (f :: fs)

/-- JS `v.length > 0` for an untyped `v` (`undefined > 0` is false for
values that have no `length` property). -/
def jLengthPos : JVal → Bool
  | .arr l => !l.isEmpty
  | .str s => !s.data.isEmpty
  | _ => false

/-- The `files && files.length > 0` guard of `commit_changes`. -/
def filesTruthyNonEmpty : Option JVal → Bool
  | none => false
  | some v => jTruthy v && jLengthPos v

/-- The staging call followed by `git.commit(message)`, shared by both
branches of `commit_changes`. -/
def runStageAndCommit (env : GitEnv) (stage : GitCall) (m : String) :
    ToolResult × List GitCall :=
  match env.run stage with
  | .error e => (⟨"Commit error: " ++ e, true⟩, [stage])
  | .ok _ =>
    match env.run (.commit m) with
    | .ok cid => (⟨"Changes committed: " ++ cid, false⟩, [stage, .commit m])
    | .error e => (⟨"Commit error: " ++ e, true⟩, [stage, .commit m])

/-- The `commit_changes` case: validate the message; when
`files && files.length > 0` validate every file and stage them, else
stage `'.'`; then commit.  A truthy non-array `files` with a positive
`length` (a non-empty string) reaches `files.map` and throws the
JS `TypeError`. -/
def runCommitChanges (env : GitEnv) (args : Args) : ToolResult × List GitCall :=
  match env.init with
  | .error e => (⟨"Commit error: " ++ e, true⟩, [])
  | .ok _ =>
    match validateCommitMessage args.message with
    | .error e => (⟨"Commit error: " ++ e, true⟩, [])
    | .ok m =>
      if filesTruthyNonEmpty args.files then
        match args.files with
        | some (.arr l) =>
          match validateFiles l with
          | .error e => (⟨"Commit error: " ++ e, true⟩, [])
          | .ok fs => runStageAndCommit env (.addFiles fs) m
        | _ => (⟨"Commit error: files.map is not a function", true⟩, [])
      else
        runStageAndCommit env .addAll m

/-- The `push_changes` case: `remote` defaults to `'origin'`; with a truthy
`branch` the code calls `git.push(remote, branch)`, otherwise it calls
`git.push()` with no arguments. -/
def runPushChanges (env : GitEnv) (args : Args) : ToolResult × List GitCall :=
  match env.init with
  | .error e => (⟨"Push error: " ++ e, true⟩, [])
  | .ok _ =>
    let remote := args.remote.getD (.str "origin")
    match args.branch with
    | some b =>
      if jTruthy b then
        match env.run (.push remote b) with
        | .ok _ =>
          (⟨"Changes pushed to " ++ jsStr remote ++ "/" ++ jsStr b, false⟩,
            [.push remote b])
        | .error e => (⟨"Push error: " ++ e, true⟩, [.push remote b])
      else
        match env.run .pushNoArgs with
        | .ok _ => (⟨"Changes pushed to " ++ jsStr remote, false⟩, [.pushNoArgs])
        | .error e => (⟨"Push error: " ++ e, true⟩, [.pushNoArgs])
    | none =>
      match env.run .pushNoArgs with
      | .ok _ => (⟨"Changes pushed to " ++ jsStr remote, false⟩, [.pushNoArgs])
      | .error e => (⟨"Push error: " ++ e, true⟩, [.pushNoArgs])

/-- The `pull_changes` case, mirroring `push_changes`. -/
def runPullChanges (env : GitEnv) (args : Args) : ToolResult × List GitCall :=
  match env.init with
  | .error e => (⟨"Pull error: " ++ e, true⟩, [])
  | .ok _ =>
    let remote := args.remote.getD (.str "origin")
    match args.branch with
    | some b =>
      if jTruthy b then
        match env.run (.pull remote b) with
        | .ok _ =>
          (⟨"Changes pulled from " ++ jsStr remote ++ "/" ++ jsStr b, false⟩,
            [.pull remote b])
        | .error e => (⟨"Pull error: " ++ e, true⟩, [.pull remote b])
      else
        match env.run .pullNoArgs with
        | .ok _ => (⟨"Changes pulled from " ++ jsStr remote, false⟩, [.pullNoArgs])
        | .error e => (⟨"Pull error: " ++ e, true⟩, [.pullNoArgs])
    | none =>
      match env.run .pullNoArgs with
      | .ok _ => (⟨"Changes pulled from " ++ jsStr remote, false⟩, [.pullNoArgs])
      | .error e => (⟨"Pull error: " ++ e, true⟩, [.pullNoArgs])

/-- Embedding of the `executeTool(name, args)` dispatcher (source lines
295–625): the eleven-way switch plus the `Unknown tool` default.  The
second component is the ordered list of git primitives attempted. -/
def executeTool (env : GitEnv) (name : String) (args : Args) :
    ToolResult × List GitCall :=
  match name with
  | "git_status" => runGitStatus env
  | "create_branch" => runCreateBranch env args
  | "switch_branch" => runSwitchBranch env args
  | "list_branches" => runListBranches env
  | "create_worktree" => runCreateWorktree env args
  | "list_worktrees" => runListWorktrees env
  | "merge_branch" => runMergeBranch env args
  | "remove_worktree" => runRemoveWorktree env args
  | "commit_changes" => runCommitChanges env args
  | "push_changes" => runPushChanges env args
  | "pull_changes" => runPullChanges env args
  | other => (⟨"Unknown tool: " ++ other, true⟩, [])

/-- An environment in which initialization and every primitive
succeed, each primitive returning the result string `"ok"`. -/
def stubEnv : GitEnv := ⟨.ok (), fun _ => .ok "ok"⟩

/-- An environment in which `createGitInstance()` itself throws. -/
def downEnv : GitEnv := ⟨.error "boom", fun _ => .error "boom"⟩

example :
    executeTool stubEnv "push_changes" noArgs
      = (⟨"Changes pushed to origin", false⟩, [.pushNoArgs]) := rfl

example :
    executeTool stubEnv "create_worktree"
        ⟨none, none, some (.str "tmp/w"), none, none, none, none, none, none⟩
      = (⟨"Worktree created at 'tmp/w' on new branch 'w'", false⟩,
          [.raw ["worktree", "add", "-b", "w", "tmp/w"]]) := rfl

example :
    executeTool stubEnv "create_worktree"
        ⟨none, none, some (.str "tmp/"), none, none, none, none, none, none⟩
      = (⟨"Worktree created at 'tmp/' on new branch 'worktree-branch'", false⟩,
          [.raw ["worktree", "add", "-b", "worktree-branch", "tmp/"]]) := rfl

example :
    executeTool stubEnv "frobnicate" noArgs
      = (⟨"Unknown tool: frobnicate", true⟩, []) := rfl

/-! ## Shared helper definitions and lemmas -/

/-- Whether a validator (or primitive) outcome is a thrown error. -/
def isFail {α : Type} : Except String α → Bool
  | .error _ => true
  | .ok _ => false

/-- The dispatcher returned a failure without attempting any git
primitive (so the repository is untouched). -/
def haltsBeforeGit (r : ToolResult × List GitCall) : Prop :=
  r.1.isError = true ∧ r.2 = []

/-- A non-empty character list is not `isEmpty`. -/
theorem any_true_not_isEmpty {l : List Char} {q : Char → Bool}
    (h : l.any q = true) : l.isEmpty = false := by
  cases l with
  | nil => simp at h
  | cons a t => rfl

/-- Containing a character forces non-emptiness. -/
theorem contains_true_not_isEmpty {l : List Char} {c : Char}
    (h : l.contains c = true) : l.isEmpty = false := by
  cases l with
  | nil => simp [List.contains] at h
  | cons a t => rfl

/-- A character in the dangerous set is also in the
dangerous-or-backslash set. -/
theorem any_dangerousOrBackslash_of_any_dangerousChar {l : List Char}
    (h : l.any dangerousChar = true) : l.any dangerousOrBackslash = true := by
  rw [List.any_eq_true] at h ⊢
  obtain ⟨c, hc, hdc⟩ := h
  exact ⟨c, hc, by simp [dangerousOrBackslash, hdc]⟩

/-! ## Claim C3 -/

/-- Claim C3, counterexample to the claim as stated: the candidate
`"C:/dir"` begins with a drive-letter-style absolute prefix yet
`validatePath` accepts it (the source has no drive-letter check), and
the candidate `"a\b"` does not begin with a path separator, contains
no `..` and none of the dangerous characters, yet `validatePath`
rejects it (the source rejects a backslash anywhere). -/
theorem validatePath_drive_and_backslash_counterexample :
    validatePath (some (.str "C:/dir")) = .ok "C:/dir"
    ∧ validatePath (some (.str "a\\b")) =
        .error "Invalid path: path traversal not allowed"
    ∧ headIsSlash ("a\\b").data = false
    ∧ hasDotDot ("a\\b").data = false
    ∧ ("a\\b").data.any dangerousChar = false :=
  ⟨rfl, rfl, by decide, by decide, by decide⟩

/-- Claim C3 (amended): `validatePath` fails for every candidate that
is empty, not a string, contains the substring `..`, begins with `/`,
or contains a backslash anywhere; for every other candidate containing
none of the dangerous characters it returns the candidate unchanged. -/
theorem validatePath_characterization (p : String) :
    ((p.data.isEmpty = true ∨ hasDotDot p.data = true ∨
        headIsSlash p.data = true ∨ p.data.contains '\\' = true ∨
        p.data.any dangerousChar = true) →
      ∃ e, validatePath (some (.str p)) = .error e)
    ∧ (p.data.isEmpty = false → hasDotDot p.data = false →
        headIsSlash p.data = false → p.data.contains '\\' = false →
        p.data.any dangerousChar = false →
        validatePath (some (.str p)) = .ok p)
    ∧ validatePath none = .error "Path must be a non-empty string"
    ∧ (∀ n : Int,
        validatePath (some (.num n)) = .error "Path must be a non-empty string")
    ∧ (∀ l, validatePath (some (.arr l)) =
        .error "Path must be a non-empty string") := by
  refine ⟨?_, ?_, rfl, fun _ => rfl, fun _ => rfl⟩
  · intro h
    simp only [validatePath]
    by_cases hE : p.data.isEmpty = true
    · exact ⟨_, if_pos hE⟩
    · rw [if_neg hE]
      by_cases hA :
        (hasDotDot p.data || headIsSlash p.data || p.data.contains '\\') = true
      · exact ⟨_, if_pos hA⟩
      · rw [if_neg hA]
        have hB : (headIsSlash p.data || p.data.any dangerousChar) = true := by
          rcases h with h | h | h | h | h
          · exact absurd h hE
          · exact absurd (by simp [h]) hA
          · simp [h]
          · have h' : '\\' ∈ p.data := by simpa using h
            exact absurd (by simp [h']) hA
          · simp [h]
        exact ⟨_, if_pos hB⟩
  · intro h₁ h₂ h₃ h₄ h₅
    have h₄' : '\\' ∉ p.data := by simpa using h₄
    simp only [validatePath]
    rw [if_neg (by simp [h₁]), if_neg (by simp [h₂, h₃, h₄']),
      if_neg (by simp [h₃, h₅])]

/-- Claim C3, witness: the amended characterization applied at the
accepted path `"a.txt"` and the rejected path `"../x"`. -/
theorem validatePath_characterization_witness :
    validatePath (some (.str "a.txt")) = .ok "a.txt"
    ∧ ∃ e, validatePath (some (.str "../x")) = .error e :=
  ⟨(validatePath_characterization "a.txt").2.1 (by decide) (by decide)
      (by decide) (by decide) (by decide),
    (validatePath_characterization "../x").1 (Or.inr (Or.inl (by decide)))⟩

/-! ## Claim C4 -/

/-- Claim C4, counterexample to the claim as stated: `"..;"` contains
the dangerous character `;`, yet `validatePath` fails with the
path-traversal message (the `..` check runs first), not the
"dangerous characters" message. -/
theorem dangerous_chars_message_counterexample :
    ("..;").data.any dangerousChar = true
    ∧ validatePath (some (.str "..;")) =
        .error "Invalid path: path traversal not allowed"
    ∧ ("Invalid path: path traversal not allowed" : String) ≠
        "Invalid path: dangerous characters not allowed" :=
  ⟨by decide, rfl, by decide⟩

/-- Claim C4 (amended): for every string containing a dangerous
character, all three validators fail; `validateBranchName` and
`validateCommitMessage` always report their "dangerous characters"
message, while `validatePath` reports its "dangerous characters"
message only when the string does not also trip the path-traversal
check (`..`, leading `/`, or a backslash), which runs first. -/
theorem dangerous_chars_fail_all_validators (s : String)
    (h : s.data.any dangerousChar = true) :
    validateBranchName (some (.str s)) =
      .error "Invalid branch name: dangerous characters not allowed"
    ∧ validateCommitMessage (some (.str s)) =
      .error "Invalid commit message: dangerous characters not allowed"
    ∧ validatePath (some (.str s)) =
      .error (if (hasDotDot s.data || headIsSlash s.data ||
                s.data.contains '\\') = true
              then "Invalid path: path traversal not allowed"
              else "Invalid path: dangerous characters not allowed") := by
  have hne : s.data.isEmpty = false := any_true_not_isEmpty h
  have hb : s.data.any dangerousOrBackslash = true :=
    any_dangerousOrBackslash_of_any_dangerousChar h
  refine ⟨?_, ?_, ?_⟩
  · unfold validateBranchName
    simp [hne, hb]
  · unfold validateCommitMessage
    simp [hne, hb]
  · have hC : (headIsSlash s.data || s.data.any dangerousChar) = true := by
      simp [h]
    simp only [validatePath]
    rw [if_neg (by simp [hne])]
    by_cases hA : (hasDotDot s.data || headIsSlash s.data ||
        s.data.contains '\\') = true
    · rw [if_pos hA, if_pos hA]
    · rw [if_neg hA, if_neg hA, if_pos hC]

/-- Claim C4, witness: the amended theorem applied at `";x"`, a string
whose only flagged character is the dangerous `;`. -/
theorem dangerous_chars_fail_all_validators_witness :
    validateBranchName (some (.str ";x")) =
      .error "Invalid branch name: dangerous characters not allowed"
    ∧ validateCommitMessage (some (.str ";x")) =
      .error "Invalid commit message: dangerous characters not allowed" := by
  have h := dangerous_chars_fail_all_validators ";x" (by decide)
  exact ⟨h.1, h.2.1⟩

/-! ## Claim C8 -/

/-- Claim C8, counterexample to the claim as stated: `"a\b"` is
non-empty and contains none of the seven dangerous characters, yet
`validateCommitMessage` rejects it — the source's character class for
commit messages also contains the backslash, unlike `validatePath`'s. -/
theorem validateCommitMessage_backslash_counterexample :
    validateCommitMessage (some (.str "a\\b")) =
      .error "Invalid commit message: dangerous characters not allowed"
    ∧ ("a\\b").data.any dangerousChar = false
    ∧ ("a\\b").data.isEmpty = false :=
  ⟨rfl, by decide, by decide⟩

/-- Claim C8 (amended): `validateCommitMessage` fails exactly when the
candidate is empty, not a string, or contains one of the dangerous
characters or a backslash; every other candidate is returned
unchanged, with no trimming. -/
theorem validateCommitMessage_characterization (m : String) :
    (validateCommitMessage (some (.str m)) = .ok m ↔
      (m.data.isEmpty = false ∧ m.data.any dangerousOrBackslash = false))
    ∧ (m.data.isEmpty = true →
        validateCommitMessage (some (.str m)) =
          .error "Commit message must be a non-empty string")
    ∧ (m.data.any dangerousOrBackslash = true → m.data.isEmpty = false →
        validateCommitMessage (some (.str m)) =
          .error "Invalid commit message: dangerous characters not allowed")
    ∧ validateCommitMessage none = .error "Commit message must be a non-empty string"
    ∧ (∀ n : Int, validateCommitMessage (some (.num n)) =
        .error "Commit message must be a non-empty string") := by
  refine ⟨?_, ?_, ?_, rfl, fun _ => rfl⟩
  · cases hE : m.data.isEmpty <;> cases hD : m.data.any dangerousOrBackslash <;>
      simp [validateCommitMessage, hE, hD]
  · intro hE
    simp [validateCommitMessage, hE]
  · intro hD hE
    simp [validateCommitMessage, hE, hD]

/-- Claim C8, witness: the amended characterization applied at the
message `"fix: a  b"` (internal double space preserved) and at the
empty message. -/
theorem validateCommitMessage_characterization_witness :
    validateCommitMessage (some (.str "fix: a  b")) = .ok "fix: a  b"
    ∧ validateCommitMessage (some (.str "")) =
        .error "Commit message must be a non-empty string" :=
  ⟨(validateCommitMessage_characterization "fix: a  b").1.mpr
      ⟨by decide, by decide⟩,
    (validateCommitMessage_characterization "").2.1 (by decide)⟩

/-! ## Claim C9 -/

/-- Claim C9: `validatePath` rejects every string containing a
backslash anywhere, with the path-traversal message; consequently a
`create_worktree` or `remove_worktree` invocation whose `path` is such
a string fails without attempting any git primitive. -/
theorem validatePath_rejects_backslash (s : String)
    (h : s.data.contains '\\' = true) :
    validatePath (some (.str s)) =
      .error "Invalid path: path traversal not allowed"
    ∧ (∀ (env : GitEnv) (args : Args), args.path = some (.str s) →
        haltsBeforeGit (executeTool env "create_worktree" args)
        ∧ haltsBeforeGit (executeTool env "remove_worktree" args)) := by
  have hne : s.data.isEmpty = false := contains_true_not_isEmpty h
  have h' : '\\' ∈ s.data := by simpa using h
  have hv : validatePath (some (.str s)) =
      .error "Invalid path: path traversal not allowed" := by
    simp only [validatePath]
    rw [if_neg (by simp [hne]), if_pos (by simp [h'])]
  refine ⟨hv, ?_⟩
  intro env args hp
  constructor
  · show haltsBeforeGit (runCreateWorktree env args)
    unfold runCreateWorktree haltsBeforeGit
    cases env.init with
    | error e => exact ⟨rfl, rfl⟩
    | ok u => rw [hp, hv]; exact ⟨rfl, rfl⟩
  · show haltsBeforeGit (runRemoveWorktree env args)
    unfold runRemoveWorktree haltsBeforeGit
    cases env.init with
    | error e => exact ⟨rfl, rfl⟩
    | ok u => rw [hp, hv]; exact ⟨rfl, rfl⟩

/-- Claim C9, witness: the Windows-style relative path `"a\b"`
rejected by `validatePath` and halting `create_worktree` before any
git call. -/
theorem validatePath_rejects_backslash_witness :
    validatePath (some (.str "a\\b")) =
      .error "Invalid path: path traversal not allowed"
    ∧ (executeTool stubEnv "create_worktree"
        ⟨none, none, some (.str "a\\b"), none, none, none, none, none,
          none⟩).2 = [] := by
  have h := validatePath_rejects_backslash "a\\b" (by decide)
  exact ⟨h.1,
    (h.2 stubEnv ⟨none, none, some (.str "a\\b"), none, none, none, none,
      none, none⟩ rfl).1.2⟩

/-! ## Claim C5 -/

/-- Claim C5: when `create_worktree` is given a valid path and no
(truthy) explicit branch, the worktree is added with `-b` on the
derived branch `defaultWorktreeBranch p` — the final segment of the
path split on `/`, with the literal `"worktree-branch"` when that
final segment is empty — and the success text reports that branch. -/
theorem create_worktree_branch_defaulting :
    ∀ (env : GitEnv) (args : Args) (p : String),
      env.init = .ok () → validatePath args.path = .ok p →
      jTruthyOpt args.branch = false →
      (executeTool env "create_worktree" args).2
        = [GitCall.raw ["worktree", "add", "-b", defaultWorktreeBranch p, p]]
      ∧ ((executeTool env "create_worktree" args).1.isError = false →
          (executeTool env "create_worktree" args).1.text
            = "Worktree created at '" ++ p ++ "' on new branch '" ++
                defaultWorktreeBranch p ++ "'") := by
  intro env args p hI hP hB
  have he : executeTool env "create_worktree" args
      = runCreateWorktree env args := rfl
  rw [he]
  simp only [runCreateWorktree, hI, hP, hB]
  unfold runWorktreeAdd
  cases hR : env.run (.raw ["worktree", "add", "-b",
      defaultWorktreeBranch p, p]) with
  | ok s => exact ⟨rfl, fun _ => rfl⟩
  | error e => exact ⟨rfl, fun hf => absurd hf (by simp)⟩

/-- Claim C5, witness: path `"tmp/w"` derives branch `"w"`, and path
`"tmp/"` (empty final segment) derives the fallback
`"worktree-branch"`. -/
theorem create_worktree_branch_defaulting_witness :
    (executeTool stubEnv "create_worktree"
        ⟨none, none, some (.str "tmp/w"), none, none, none, none, none,
          none⟩).2
      = [GitCall.raw ["worktree", "add", "-b", "w", "tmp/w"]]
    ∧ (executeTool stubEnv "create_worktree"
        ⟨none, none, some (.str "tmp/"), none, none, none, none, none,
          none⟩).2
      = [GitCall.raw ["worktree", "add", "-b", "worktree-branch", "tmp/"]] := by
  constructor
  · exact (create_worktree_branch_defaulting stubEnv
      ⟨none, none, some (.str "tmp/w"), none, none, none, none, none, none⟩
      "tmp/w" rfl rfl rfl).1
  · exact (create_worktree_branch_defaulting stubEnv
      ⟨none, none, some (.str "tmp/"), none, none, none, none, none, none⟩
      "tmp/" rfl rfl rfl).1

/-! ## Claim C6 -/

/-- Whether a git invocation carries no remote argument (only the
two-argument `push`/`pull` calls do). -/
def carriesNoRemote : GitCall → Bool
  | .push _ _ => false
  | .pull _ _ => false
  | _ => true

/-- Claim C6, counterexample to the claim as stated: a `push_changes`
invocation with `remote: "upstream"` and no branch invokes the
zero-argument `git.push()` — the push primitive is NOT invoked with
the remote — even though the success text still reads
"Changes pushed to upstream". -/
theorem push_remote_without_branch_counterexample :
    (executeTool stubEnv "push_changes"
        ⟨none, none, none, none, none, none, none, none,
          some (.str "upstream")⟩).2 = [GitCall.pushNoArgs]
    ∧ (executeTool stubEnv "push_changes"
        ⟨none, none, none, none, none, none, none, none,
          some (.str "upstream")⟩).1.text = "Changes pushed to upstream"
    ∧ [GitCall.pushNoArgs].all carriesNoRemote = true := ⟨rfl, rfl, rfl⟩

/-- Claim C6 (amended): with a truthy branch, `push_changes` invokes
`push(remote, branch)` with the remote defaulting to `"origin"`; with
no (truthy) branch it invokes the zero-argument `git.push()`, passing
no remote; the success text is "Changes pushed to <remote>" without a
branch and "Changes pushed to <remote>/<branch>" with one. -/
theorem push_changes_behavior :
    ∀ (env : GitEnv) (args : Args), env.init = .ok () →
      (jTruthyOpt args.branch = false →
        (executeTool env "push_changes" args).2 = [GitCall.pushNoArgs]
        ∧ (∀ s, env.run GitCall.pushNoArgs = .ok s →
            (executeTool env "push_changes" args).1.text
              = "Changes pushed to " ++ jsStr (args.remote.getD (.str "origin"))
            ∧ (executeTool env "push_changes" args).1.isError = false))
      ∧ (∀ b, args.branch = some b → jTruthy b = true →
          (executeTool env "push_changes" args).2
            = [GitCall.push (args.remote.getD (.str "origin")) b]
          ∧ (∀ s,
              env.run (GitCall.push (args.remote.getD (.str "origin")) b)
                = .ok s →
              (executeTool env "push_changes" args).1.text
                = "Changes pushed to " ++
                    jsStr (args.remote.getD (.str "origin")) ++ "/" ++ jsStr b
              ∧ (executeTool env "push_changes" args).1.isError = false)) := by
  intro env args hI
  have he : executeTool env "push_changes" args = runPushChanges env args := rfl
  constructor
  · intro hB
    rw [he]
    simp only [runPushChanges, hI]
    cases hab : args.branch with
    | none =>
      cases hR : env.run GitCall.pushNoArgs with
      | ok s => exact ⟨rfl, fun _ _ => ⟨rfl, rfl⟩⟩
      | error e => exact ⟨rfl, fun s hs => by cases hs⟩
    | some b =>
      have hT : jTruthy b = false := by
        rw [hab] at hB
        exact hB
      simp only [hT]
      cases hR : env.run GitCall.pushNoArgs with
      | ok s => exact ⟨rfl, fun _ _ => ⟨rfl, rfl⟩⟩
      | error e => exact ⟨rfl, fun s hs => by cases hs⟩
  · intro b hab hT
    rw [he]
    simp only [runPushChanges, hI, hab, hT]
    cases hR : env.run (GitCall.push (args.remote.getD (.str "origin")) b) with
    | ok s => exact ⟨rfl, fun _ _ => ⟨rfl, rfl⟩⟩
    | error e => exact ⟨rfl, fun s hs => by cases hs⟩

/-- Claim C6, witness: push with no arguments yields
"Changes pushed to origin" over the zero-argument `git.push()`, and
push with `{remote:"upstream", branch:"feature"}` invokes
`push("upstream", "feature")` and yields
"Changes pushed to upstream/feature". -/
theorem push_changes_behavior_witness :
    (executeTool stubEnv "push_changes" noArgs).2 = [GitCall.pushNoArgs]
    ∧ (executeTool stubEnv "push_changes" noArgs).1.text
        = "Changes pushed to origin"
    ∧ (executeTool stubEnv "push_changes"
        ⟨none, none, none, some (.str "feature"), none, none, none, none,
          some (.str "upstream")⟩).2
        = [GitCall.push (.str "upstream") (.str "feature")]
    ∧ (executeTool stubEnv "push_changes"
        ⟨none, none, none, some (.str "feature"), none, none, none, none,
          some (.str "upstream")⟩).1.text
        = "Changes pushed to upstream/feature" := by
  have h₁ := (push_changes_behavior stubEnv noArgs rfl).1 rfl
  have h₂ := (push_changes_behavior stubEnv
    ⟨none, none, none, some (.str "feature"), none, none, none, none,
      some (.str "upstream")⟩ rfl).2 (.str "feature") rfl rfl
  exact ⟨h₁.1, (h₁.2 "ok" rfl).1, h₂.1, (h₂.2 "ok" rfl).1⟩

/-! ## Claim C10 -/

/-- Claim C10: a `commit_changes` invocation whose `files` argument is
the empty array behaves identically to one with `files` absent — the
guard `files && files.length > 0` is false for `[]` — so the stage-all
primitive (`git.add('.')`) is invoked and the commit proceeds with the
validated message. -/
theorem commit_empty_files_eq_absent :
    ∀ (env : GitEnv) (bn fb p b sb tb msg rem : Option JVal),
      executeTool env "commit_changes"
          ⟨bn, fb, p, b, sb, tb, msg, some (.arr []), rem⟩
        = executeTool env "commit_changes"
          ⟨bn, fb, p, b, sb, tb, msg, none, rem⟩
      ∧ (env.init = .ok () → ∀ m, validateCommitMessage msg = .ok m →
          ((executeTool env "commit_changes"
              ⟨bn, fb, p, b, sb, tb, msg, some (.arr []), rem⟩).2).head?
            = some GitCall.addAll
          ∧ (∀ s, env.run GitCall.addAll = .ok s →
              (executeTool env "commit_changes"
                ⟨bn, fb, p, b, sb, tb, msg, some (.arr []), rem⟩).2
                = [GitCall.addAll, GitCall.commit m])) := by
  intro env bn fb p b sb tb msg rem
  constructor
  · rfl
  · intro hI m hM
    have he : executeTool env "commit_changes"
        ⟨bn, fb, p, b, sb, tb, msg, some (.arr []), rem⟩
        = runCommitChanges env ⟨bn, fb, p, b, sb, tb, msg, some (.arr []), rem⟩ :=
      rfl
    rw [he]
    simp only [runCommitChanges, hI, hM]
    have hg : filesTruthyNonEmpty (some (.arr [])) = false := rfl
    simp only [hg, Bool.false_eq_true, if_false]
    unfold runStageAndCommit
    cases hR : env.run GitCall.addAll with
    | error e => exact ⟨rfl, fun s hs => by cases hs⟩
    | ok s =>
      cases hC : env.run (GitCall.commit m) with
      | ok cid => exact ⟨rfl, fun _ _ => rfl⟩
      | error e => exact ⟨rfl, fun _ _ => rfl⟩

/-- Claim C10, witness: committing message `"m"` with `files: []`
stages `'.'` and commits, exactly as with `files` absent. -/
theorem commit_empty_files_eq_absent_witness :
    executeTool stubEnv "commit_changes"
        ⟨none, none, none, none, none, none, some (.str "m"),
          some (.arr []), none⟩
      = executeTool stubEnv "commit_changes"
        ⟨none, none, none, none, none, none, some (.str "m"), none, none⟩
    ∧ (executeTool stubEnv "commit_changes"
        ⟨none, none, none, none, none, none, some (.str "m"),
          some (.arr []), none⟩).2
      = [GitCall.addAll, GitCall.commit "m"] := by
  have h := commit_empty_files_eq_absent stubEnv none none none none none
    none (some (.str "m")) none
  exact ⟨h.1, ((h.2 rfl "m" rfl).2 "ok" rfl)⟩

/-! ## Claim C7 -/

/-- If the outcome is a thrown error there is a message. -/
theorem isFail_eq_true {α : Type} {x : Except String α}
    (h : isFail x = true) : ∃ e, x = .error e := by
  cases x with
  | error e => exact ⟨e, rfl⟩
  | ok a => simp [isFail] at h

/-- When the file-list validation of `commit_changes` throws, the
whole batch fails with no staging and no commit attempted, and (when
initialization and the message check passed) the error text wraps the
thrown message under the `Commit error: ` tag. -/
theorem runCommitChanges_files_error (env : GitEnv) (args : Args)
    (l : List JVal) (e : String) (hfiles : args.files = some (.arr l))
    (hval : validateFiles l = .error e) :
    (runCommitChanges env args).2 = []
    ∧ (runCommitChanges env args).1.isError = true
    ∧ (env.init = .ok () → ∀ m, validateCommitMessage args.message = .ok m →
        (runCommitChanges env args).1.text = "Commit error: " ++ e) := by
  have hlne : l ≠ [] := by
    intro h0
    rw [h0] at hval
    simp [validateFiles] at hval
  cases hI : env.init with
  | error e0 =>
    have hr : runCommitChanges env args = (⟨"Commit error: " ++ e0, true⟩, []) := by
      simp only [runCommitChanges, hI]
    rw [hr]
    exact ⟨rfl, rfl, fun hI0 => Except.noConfusion hI0⟩
  | ok u =>
    cases hM : validateCommitMessage args.message with
    | error e1 =>
      have hr : runCommitChanges env args
          = (⟨"Commit error: " ++ e1, true⟩, []) := by
        simp only [runCommitChanges, hI, hM]
      rw [hr]
      exact ⟨rfl, rfl, fun _ m hm => Except.noConfusion hm⟩
    | ok m0 =>
      cases l with
      | nil => exact absurd rfl hlne
      | cons x xs =>
        have hr : runCommitChanges env args
            = (⟨"Commit error: " ++ e, true⟩, []) := by
          simp [runCommitChanges, filesTruthyNonEmpty, jTruthy, jLengthPos,
            hI, hM, hfiles, hval]
        rw [hr]
        exact ⟨rfl, rfl, fun _ m _ => rfl⟩

/-- Claim C7, counterexample to the claim as stated: committing
`files: ["a.txt", 123]` fails — but with the fixed message
`'File paths must be strings'`, which does not name (or even contain)
the offending entry `123`. -/
theorem commit_nonstring_entry_counterexample :
    (executeTool stubEnv "commit_changes"
        ⟨none, none, none, none, none, none, some (.str "m"),
          some (.arr [.str "a.txt", .num 123]), none⟩).1.text
      = "Commit error: File paths must be strings"
    ∧ (executeTool stubEnv "commit_changes"
        ⟨none, none, none, none, none, none, some (.str "m"),
          some (.arr [.str "a.txt", .num 123]), none⟩).2 = []
    ∧ ¬ ("123".data <:+: "Commit error: File paths must be strings".data) :=
  ⟨rfl, rfl, by decide⟩

/-- Claim C7 (amended): with a non-empty `files` array, any non-string
element fails the whole batch with the fixed message
`'File paths must be strings'` (not one naming the entry), and any
string element failing the `validatePath`-equivalent check fails the
whole batch with `'Invalid file path: <entry>'`, naming the entry; in
either case no file is staged and no commit is made. -/
theorem commit_file_list_validation :
    (∀ n : Int, validateFile (.num n) = .error "File paths must be strings")
    ∧ (∀ l, validateFile (.arr l) = .error "File paths must be strings")
    ∧ validateFile .null = .error "File paths must be strings"
    ∧ (∀ b, validateFile (.bool b) = .error "File paths must be strings")
    ∧ (∀ f : String,
        (hasDotDot f.data || headIsSlash f.data || f.data.contains '\\' ||
          f.data.any dangerousChar) = true →
        validateFile (.str f) = .error ("Invalid file path: " ++ f))
    ∧ (∀ (env : GitEnv) (args : Args) (l : List JVal) (e : String),
        args.files = some (.arr l) → validateFiles l = .error e →
        (executeTool env "commit_changes" args).2 = []
        ∧ (executeTool env "commit_changes" args).1.isError = true
        ∧ (env.init = .ok () →
            ∀ m, validateCommitMessage args.message = .ok m →
            (executeTool env "commit_changes" args).1.text
              = "Commit error: " ++ e)) := by
  refine ⟨fun n => rfl, fun l => rfl, rfl, fun b => rfl, ?_, ?_⟩
  · intro f hf
    simp only [validateFile]
    rw [if_pos hf]
  · intro env args l e hfiles hval
    exact runCommitChanges_files_error env args l e hfiles hval

/-- Claim C7, witness: committing `files: ["../x"]` fails with
`'Commit error: Invalid file path: ../x'`, staging nothing. -/
theorem commit_file_list_validation_witness :
    validateFile (.str "../x") = .error "Invalid file path: ../x"
    ∧ (executeTool stubEnv "commit_changes"
        ⟨none, none, none, none, none, none, some (.str "m"),
          some (.arr [.str "../x"]), none⟩).2 = []
    ∧ (executeTool stubEnv "commit_changes"
        ⟨none, none, none, none, none, none, some (.str "m"),
          some (.arr [.str "../x"]), none⟩).1.text
      = "Commit error: Invalid file path: ../x" := by
  have h₁ := commit_file_list_validation.2.2.2.2.1 "../x" (by decide)
  have h₂ := commit_file_list_validation.2.2.2.2.2 stubEnv
    ⟨none, none, none, none, none, none, some (.str "m"),
      some (.arr [.str "../x"]), none⟩ [.str "../x"]
    "Invalid file path: ../x" rfl rfl
  exact ⟨h₁, h₂.1, h₂.2.2 rfl "m" rfl⟩

/-! ## Claim C2 -/

/-- Claim C2: whenever a validator (`validatePath`,
`validateBranchName`, `validateCommitMessage`, or the commit
file-list check) rejects an input of a tool, the dispatcher returns a
Failure with an empty git-call trace — no checkout, merge, worktree,
add, commit, push or pull is attempted, so the repository state is
unchanged on a validation failure. -/
theorem validation_failure_no_primitives :
    ∀ (env : GitEnv) (args : Args),
      (isFail (validateBranchName args.branchName) = true →
        haltsBeforeGit (executeTool env "create_branch" args)
        ∧ haltsBeforeGit (executeTool env "switch_branch" args))
      ∧ (jTruthyOpt args.fromBranch = true →
          isFail (validateBranchName args.fromBranch) = true →
          haltsBeforeGit (executeTool env "create_branch" args))
      ∧ (isFail (validateBranchName args.sourceBranch) = true →
          haltsBeforeGit (executeTool env "merge_branch" args))
      ∧ (jTruthyOpt args.targetBranch = true →
          isFail (validateBranchName args.targetBranch) = true →
          haltsBeforeGit (executeTool env "merge_branch" args))
      ∧ (isFail (validatePath args.path) = true →
          haltsBeforeGit (executeTool env "create_worktree" args)
          ∧ haltsBeforeGit (executeTool env "remove_worktree" args))
      ∧ (jTruthyOpt args.branch = true →
          isFail (validateBranchName args.branch) = true →
          haltsBeforeGit (executeTool env "create_worktree" args))
      ∧ (isFail (validateCommitMessage args.message) = true →
          haltsBeforeGit (executeTool env "commit_changes" args))
      ∧ (∀ l, args.files = some (.arr l) →
          isFail (validateFiles l) = true →
          haltsBeforeGit (executeTool env "commit_changes" args)) := by
  intro env args
  refine ⟨?_, ?_, ?_, ?_, ?_, ?_, ?_, ?_⟩
  · intro h
    obtain ⟨e, hv⟩ := isFail_eq_true h
    constructor
    · show haltsBeforeGit (runCreateBranch env args)
      unfold haltsBeforeGit
      cases hI : env.init with
      | error e0 => simp_all [runCreateBranch]
      | ok u => simp_all [runCreateBranch]
    · show haltsBeforeGit (runSwitchBranch env args)
      unfold haltsBeforeGit
      cases hI : env.init with
      | error e0 => simp_all [runSwitchBranch]
      | ok u => simp_all [runSwitchBranch]
  · intro hT h
    obtain ⟨e, hv⟩ := isFail_eq_true h
    show haltsBeforeGit (runCreateBranch env args)
    unfold haltsBeforeGit
    cases hI : env.init with
    | error e0 => simp_all [runCreateBranch]
    | ok u =>
      cases hbn : validateBranchName args.branchName with
      | error e1 => simp_all [runCreateBranch]
      | ok bn => simp_all [runCreateBranch]
  · intro h
    obtain ⟨e, hv⟩ := isFail_eq_true h
    show haltsBeforeGit (runMergeBranch env args)
    unfold haltsBeforeGit
    cases hI : env.init with
    | error e0 => simp_all [runMergeBranch]
    | ok u => simp_all [runMergeBranch]
  · intro hT h
    obtain ⟨e, hv⟩ := isFail_eq_true h
    show haltsBeforeGit (runMergeBranch env args)
    unfold haltsBeforeGit
    cases hI : env.init with
    | error e0 => simp_all [runMergeBranch]
    | ok u =>
      cases hsb : validateBranchName args.sourceBranch with
      | error e1 => simp_all [runMergeBranch]
      | ok sb => simp_all [runMergeBranch]
  · intro h
    obtain ⟨e, hv⟩ := isFail_eq_true h
    constructor
    · show haltsBeforeGit (runCreateWorktree env args)
      unfold haltsBeforeGit
      cases hI : env.init with
      | error e0 => simp_all [runCreateWorktree]
      | ok u => simp_all [runCreateWorktree]
    · show haltsBeforeGit (runRemoveWorktree env args)
      unfold haltsBeforeGit
      cases hI : env.init with
      | error e0 => simp_all [runRemoveWorktree]
      | ok u => simp_all [runRemoveWorktree]
  · intro hT h
    obtain ⟨e, hv⟩ := isFail_eq_true h
    show haltsBeforeGit (runCreateWorktree env args)
    unfold haltsBeforeGit
    cases hI : env.init with
    | error e0 => simp_all [runCreateWorktree]
    | ok u =>
      cases hp : validatePath args.path with
      | error e1 => simp_all [runCreateWorktree]
      | ok p => simp_all [runCreateWorktree]
  · intro h
    obtain ⟨e, hv⟩ := isFail_eq_true h
    show haltsBeforeGit (runCommitChanges env args)
    unfold haltsBeforeGit
    cases hI : env.init with
    | error e0 => simp_all [runCommitChanges]
    | ok u => simp_all [runCommitChanges]
  · intro l hfiles h
    obtain ⟨e, hv⟩ := isFail_eq_true h
    have hb := runCommitChanges_files_error env args l e hfiles hv
    exact ⟨hb.2.1, hb.1⟩

/-- Claim C2, witness: an invalid branch name halts `create_branch`
with no git call, and an invalid commit message halts
`commit_changes` with no git call. -/
theorem validation_failure_no_primitives_witness :
    (executeTool stubEnv "create_branch"
        ⟨some (.str "bad..name"), none, none, none, none, none, none,
          none, none⟩).1.isError = true
    ∧ (executeTool stubEnv "create_branch"
        ⟨some (.str "bad..name"), none, none, none, none, none, none,
          none, none⟩).2 = []
    ∧ (executeTool stubEnv "commit_changes"
        ⟨none, none, none, none, none, none, some (.str "bad;msg"),
          none, none⟩).2 = [] := by
  have h₁ := (validation_failure_no_primitives stubEnv
    ⟨some (.str "bad..name"), none, none, none, none, none, none, none,
      none⟩).1 (by decide)
  have h₂ := (validation_failure_no_primitives stubEnv
    ⟨none, none, none, none, none, none, some (.str "bad;msg"), none,
      none⟩).2.2.2.2.2.2.1 (by decide)
  exact ⟨h₁.1.1, h₁.1.2, h₂.2⟩

/-! ## Claim C1 -/

/-- Any failure of the `git_status` case is tagged `Git status error: `. -/
theorem runGitStatus_error_text (env : GitEnv) :
    (runGitStatus env).1.isError = true →
    ∃ m, (runGitStatus env).1.text = "Git status error: " ++ m := by
  unfold runGitStatus
  repeat' split
  all_goals intro h
  all_goals first
  | exact ⟨_, rfl⟩
  | exact Bool.noConfusion h

/-- Any failure of the `create_branch` case is tagged
`Create branch error: `. -/
theorem runCreateBranch_error_text (env : GitEnv) (args : Args) :
    (runCreateBranch env args).1.isError = true →
    ∃ m, (runCreateBranch env args).1.text = "Create branch error: " ++ m := by
  unfold runCreateBranch
  repeat' split
  all_goals intro h
  all_goals first
  | exact ⟨_, rfl⟩
  | exact Bool.noConfusion h

/-- Any failure of the `switch_branch` case is tagged
`Switch branch error: `. -/
theorem runSwitchBranch_error_text (env : GitEnv) (args : Args) :
    (runSwitchBranch env args).1.isError = true →
    ∃ m, (runSwitchBranch env args).1.text = "Switch branch error: " ++ m := by
  unfold runSwitchBranch
  repeat' split
  all_goals intro h
  all_goals first
  | exact ⟨_, rfl⟩
  | exact Bool.noConfusion h

/-- Any failure of the `list_branches` case is tagged
`List branches error: `. -/
theorem runListBranches_error_text (env : GitEnv) :
    (runListBranches env).1.isError = true →
    ∃ m, (runListBranches env).1.text = "List branches error: " ++ m := by
  unfold runListBranches
  repeat' split
  all_goals intro h
  all_goals first
  | exact ⟨_, rfl⟩
  | exact Bool.noConfusion h

/-- Any failure of the `create_worktree` case is tagged
`Create worktree error: `. -/
theorem runCreateWorktree_error_text (env : GitEnv) (args : Args) :
    (runCreateWorktree env args).1.isError = true →
    ∃ m, (runCreateWorktree env args).1.text
      = "Create worktree error: " ++ m := by
  unfold runCreateWorktree runWorktreeAdd
  repeat' split
  all_goals intro h
  all_goals first
  | exact ⟨_, rfl⟩
  | exact Bool.noConfusion h

/-- Any failure of the `list_worktrees` case is tagged
`List worktrees error: `. -/
theorem runListWorktrees_error_text (env : GitEnv) :
    (runListWorktrees env).1.isError = true →
    ∃ m, (runListWorktrees env).1.text = "List worktrees error: " ++ m := by
  unfold runListWorktrees
  repeat' split
  all_goals intro h
  all_goals first
  | exact ⟨_, rfl⟩
  | exact Bool.noConfusion h

/-- Any failure of the `merge_branch` case is tagged `Merge error: `. -/
theorem runMergeBranch_error_text (env : GitEnv) (args : Args) :
    (runMergeBranch env args).1.isError = true →
    ∃ m, (runMergeBranch env args).1.text = "Merge error: " ++ m := by
  unfold runMergeBranch
  repeat' split
  all_goals intro h
  all_goals first
  | exact ⟨_, rfl⟩
  | exact Bool.noConfusion h

/-- Any failure of the `remove_worktree` case is tagged
`Remove worktree error: `. -/
theorem runRemoveWorktree_error_text (env : GitEnv) (args : Args) :
    (runRemoveWorktree env args).1.isError = true →
    ∃ m, (runRemoveWorktree env args).1.text
      = "Remove worktree error: " ++ m := by
  unfold runRemoveWorktree
  repeat' split
  all_goals intro h
  all_goals first
  | exact ⟨_, rfl⟩
  | exact Bool.noConfusion h

/-- Any failure of the `commit_changes` case is tagged
`Commit error: `. -/
theorem runCommitChanges_error_text (env : GitEnv) (args : Args) :
    (runCommitChanges env args).1.isError = true →
    ∃ m, (runCommitChanges env args).1.text = "Commit error: " ++ m := by
  unfold runCommitChanges runStageAndCommit
  repeat' split
  all_goals intro h
  all_goals first
  | exact ⟨_, rfl⟩
  | exact Bool.noConfusion h

/-- Any failure of the `push_changes` case is tagged `Push error: `. -/
theorem runPushChanges_error_text (env : GitEnv) (args : Args) :
    (runPushChanges env args).1.isError = true →
    ∃ m, (runPushChanges env args).1.text = "Push error: " ++ m := by
  simp only [runPushChanges]
  repeat' split
  all_goals intro h
  all_goals first
  | exact ⟨_, rfl⟩
  | exact Bool.noConfusion h

/-- Any failure of the `pull_changes` case is tagged `Pull error: `. -/
theorem runPullChanges_error_text (env : GitEnv) (args : Args) :
    (runPullChanges env args).1.isError = true →
    ∃ m, (runPullChanges env args).1.text = "Pull error: " ++ m := by
  simp only [runPullChanges]
  repeat' split
  all_goals intro h
  all_goals first
  | exact ⟨_, rfl⟩
  | exact Bool.noConfusion h

/-- The per-family error-text tag of each recognized tool name
(`none` for an unrecognized one). -/
def actionTag : String → Option String
  | "git_status" => some "Git status error: "
  | "create_branch" => some "Create branch error: "
  | "switch_branch" => some "Switch branch error: "
  | "list_branches" => some "List branches error: "
  | "create_worktree" => some "Create worktree error: "
  | "list_worktrees" => some "List worktrees error: "
  | "merge_branch" => some "Merge error: "
  | "remove_worktree" => some "Remove worktree error: "
  | "commit_changes" => some "Commit error: "
  | "push_changes" => some "Push error: "
  | "pull_changes" => some "Pull error: "
  | _ => none

/-- Claim C1, counterexample to the claim as stated: dispatching the
unrecognized tool name `"frobnicate"` yields a failure
(`isError:true`) whose text is `"Unknown tool: frobnicate"`; that text
does not contain `" error: "` at all, so for this failure the text
does not begin with a failing action's name followed by `" error: "`. -/
theorem unknown_tool_error_shape_counterexample :
    (executeTool stubEnv "frobnicate" noArgs).1.isError = true
    ∧ (executeTool stubEnv "frobnicate" noArgs).1.text
        = "Unknown tool: frobnicate"
    ∧ ¬ (" error: ".data <:+: "Unknown tool: frobnicate".data) :=
  ⟨rfl, rfl, by decide⟩

/-- Claim C1 (amended): `executeTool` is a total function — every
invocation returns a well-formed result; every failure carries
`isError:true`; for a recognized tool the failure text begins with the
tool family's action tag followed by `error: ` (the eleven tags are
pairwise distinct), while for an unrecognized name the result is a
failure with text `Unknown tool: <name>`. -/
theorem executeTool_error_text_shape :
    ∀ (env : GitEnv) (name : String) (args : Args),
      ((executeTool env name args).1.isError = true →
        (match actionTag name with
          | some tag => ∃ m, (executeTool env name args).1.text = tag ++ m
          | none =>
              (executeTool env name args).1.text = "Unknown tool: " ++ name))
      ∧ (actionTag name = none →
          (executeTool env name args).1.isError = true
          ∧ (executeTool env name args).1.text = "Unknown tool: " ++ name)
      ∧ (["Git status error: ", "Create branch error: ",
          "Switch branch error: ", "List branches error: ",
          "Create worktree error: ", "List worktrees error: ",
          "Merge error: ", "Remove worktree error: ", "Commit error: ",
          "Push error: ", "Pull error: "] : List String).Nodup := by
  intro env name args
  refine ⟨?_, ?_, by decide⟩
  · by_cases h1 : name = "git_status"
    · subst h1
      exact fun hE => runGitStatus_error_text env hE
    by_cases h2 : name = "create_branch"
    · subst h2
      exact fun hE => runCreateBranch_error_text env args hE
    by_cases h3 : name = "switch_branch"
    · subst h3
      exact fun hE => runSwitchBranch_error_text env args hE
    by_cases h4 : name = "list_branches"
    · subst h4
      exact fun hE => runListBranches_error_text env hE
    by_cases h5 : name = "create_worktree"
    · subst h5
      exact fun hE => runCreateWorktree_error_text env args hE
    by_cases h6 : name = "list_worktrees"
    · subst h6
      exact fun hE => runListWorktrees_error_text env hE
    by_cases h7 : name = "merge_branch"
    · subst h7
      exact fun hE => runMergeBranch_error_text env args hE
    by_cases h8 : name = "remove_worktree"
    · subst h8
      exact fun hE => runRemoveWorktree_error_text env args hE
    by_cases h9 : name = "commit_changes"
    · subst h9
      exact fun hE => runCommitChanges_error_text env args hE
    by_cases h10 : name = "push_changes"
    · subst h10
      exact fun hE => runPushChanges_error_text env args hE
    by_cases h11 : name = "pull_changes"
    · subst h11
      exact fun hE => runPullChanges_error_text env args hE
    have ha : actionTag name = none := by
      unfold actionTag
      split
      · exact absurd rfl h1
      · exact absurd rfl h2
      · exact absurd rfl h3
      · exact absurd rfl h4
      · exact absurd rfl h5
      · exact absurd rfl h6
      · exact absurd rfl h7
      · exact absurd rfl h8
      · exact absurd rfl h9
      · exact absurd rfl h10
      · exact absurd rfl h11
      · rfl
    have hd : executeTool env name args
        = (⟨"Unknown tool: " ++ name, true⟩, []) := by
      unfold executeTool
      split
      · exact absurd rfl h1
      · exact absurd rfl h2
      · exact absurd rfl h3
      · exact absurd rfl h4
      · exact absurd rfl h5
      · exact absurd rfl h6
      · exact absurd rfl h7
      · exact absurd rfl h8
      · exact absurd rfl h9
      · exact absurd rfl h10
      · exact absurd rfl h11
      · rfl
    intro hE
    simp only [ha]
    rw [hd]
  · intro hN
    have hd : executeTool env name args
        = (⟨"Unknown tool: " ++ name, true⟩, []) := by
      unfold executeTool
      split
      · exact Option.noConfusion hN
      · exact Option.noConfusion hN
      · exact Option.noConfusion hN
      · exact Option.noConfusion hN
      · exact Option.noConfusion hN
      · exact Option.noConfusion hN
      · exact Option.noConfusion hN
      · exact Option.noConfusion hN
      · exact Option.noConfusion hN
      · exact Option.noConfusion hN
      · exact Option.noConfusion hN
      · rfl
    rw [hd]
    exact ⟨rfl, rfl⟩

/-- Claim C1, witness: a failing `git_status` (initialization throws)
yields a failure whose text begins with `Git status error: `, and an
unrecognized tool name yields a failure. -/
theorem executeTool_error_text_shape_witness :
    (executeTool downEnv "git_status" noArgs).1.isError = true
    ∧ (∃ m, (executeTool downEnv "git_status" noArgs).1.text
        = "Git status error: " ++ m)
    ∧ (executeTool stubEnv "no_such_tool" noArgs).1.isError = true := by
  have h := executeTool_error_text_shape downEnv "git_status" noArgs
  have h2 := executeTool_error_text_shape stubEnv "no_such_tool" noArgs
  exact ⟨rfl, h.1 rfl, (h2.2.1 rfl).1⟩

end GitServer
